import Mathlib

/-!
Verification of the portmap reverse TCP port-forwarding tool.

This file shallowly embeds the program's data model and operations:
the AES-CTR stream cipher wrapper (`src/encrypto/stream.go`), the key/iv
derivation from the shared secret, and the server/client session logic of
`src/pmap.go` (pending-slot table, START handling, NEWCONN handoff,
NEWSOCKET handling, client retry loop).  Bytes are modelled as `Nat`
(values < 256 where produced by the code), connections as `Nat`
identifiers, Unix timestamps as `Int`, and side effects (writes on a
connection, connections closed, splices launched) as explicit result
fields.
-/

namespace Pmap

/-! ## Protocol tags (pmap.go, iota block lines 48-70) -/

def START : Nat := 1
def NEWSOCKET : Nat := 2
def NEWCONN : Nat := 3
def ERROR : Nat := 4
def SUCCESS : Nat := 5
def IDLE : Nat := 6
def KILL : Nat := 7
def ERROR_PWD : Nat := 8
def ERROR_BUSY : Nat := 9
def ERROR_LIMIT_PORT : Nat := 10

/-! ## AES-128 block cipher (Go crypto/aes, the block cipher behind
cipher.NewCTR in stream.go).  Bytes are `Nat` values below 256. -/

/-- Multiplication by x in GF(2^8) with the AES reduction polynomial. -/
def xtime (b : Nat) : Nat :=
  if b &&& 128 = 0 then (b * 2) &&& 255 else ((b * 2) ^^^ 27) &&& 255

/-- Iterated GF(2^8) product accumulator: `n` remaining bits of `b`. -/
def gfMulAux : Nat → Nat → Nat → Nat → Nat
  | 0, _, _, acc => acc
  | n + 1, a, b, acc =>
      gfMulAux n (xtime a) (b / 2) (if b % 2 = 1 then acc ^^^ a else acc)

/-- GF(2^8) multiplication. -/
def gfMul (a b : Nat) : Nat := gfMulAux 8 a b 0

/-- GF(2^8) power by repeated multiplication. -/
def gfPow : Nat → Nat → Nat
  | _, 0 => 1
  | a, n + 1 => gfMul a (gfPow a n)

/-- GF(2^8) inverse via a^254 (0 maps to 0, the AES convention). -/
def gfInv (a : Nat) : Nat := gfPow a 254

/-- Rotate an 8-bit value left by `n`. -/
def rotl8 (b n : Nat) : Nat := ((b <<< n) ||| (b >>> (8 - n))) &&& 255

/-- The AES S-box: affine transform of the GF(2^8) inverse. -/
def sbox (b : Nat) : Nat :=
  let x := gfInv b
  x ^^^ rotl8 x 1 ^^^ rotl8 x 2 ^^^ rotl8 x 3 ^^^ rotl8 x 4 ^^^ 99

/-- Pointwise XOR of two byte lists. -/
def xorBytes (a b : List Nat) : List Nat := List.zipWith Nat.xor a b

/-- Rotate a 4-byte word left by one byte. -/
def rotWord (w : List Nat) : List Nat := w.drop 1 ++ w.take 1

/-- Apply the S-box to each byte of a word. -/
def subWord (w : List Nat) : List Nat := w.map sbox

/-- AES-128 key schedule: the 44 4-byte words expanded from a 16-byte key. -/
def keyWords (key : List Nat) : List (List Nat) :=
  (List.range 40).foldl
    (fun ws i =>
      let j := i + 4
      let prev := ws.getD (j - 1) []
      let t :=
        if j % 4 = 0 then
          xorBytes (subWord (rotWord prev)) [gfPow 2 (j / 4 - 1), 0, 0, 0]
        else prev
      ws ++ [xorBytes (ws.getD (j - 4) []) t])
    ((List.range 4).map (fun i => (key.drop (4 * i)).take 4))

/-- The 16 bytes of round key `r` (words 4r..4r+3 flattened). -/
def roundKey (ws : List (List Nat)) (r : Nat) : List Nat :=
  ((ws.drop (4 * r)).take 4).flatten

/-- AES ShiftRows on the flat, column-major 16-byte state. -/
def shiftRows (s : List Nat) : List Nat :=
  (List.range 16).map (fun p =>
    let r := p % 4
    let c := p / 4
    s.getD (4 * ((c + r) % 4) + r) 0)

/-- AES MixColumns on a single 4-byte column. -/
def mixCol (a : List Nat) : List Nat :=
  let a0 := a.getD 0 0
  let a1 := a.getD 1 0
  let a2 := a.getD 2 0
  let a3 := a.getD 3 0
  [gfMul 2 a0 ^^^ gfMul 3 a1 ^^^ a2 ^^^ a3,
   a0 ^^^ gfMul 2 a1 ^^^ gfMul 3 a2 ^^^ a3,
   a0 ^^^ a1 ^^^ gfMul 2 a2 ^^^ gfMul 3 a3,
   gfMul 3 a0 ^^^ a1 ^^^ a2 ^^^ gfMul 2 a3]

/-- AES MixColumns on the flat 16-byte state. -/
def mixColumns (s : List Nat) : List Nat :=
  ((List.range 4).map (fun c => mixCol ((s.drop (4 * c)).take 4))).flatten

/-- AES-128 single-block encryption of a 16-byte block. -/
def aes128Encrypt (key block : List Nat) : List Nat :=
  let ws := keyWords key
  let s0 := xorBytes block (roundKey ws 0)
  let s9 := (List.range 9).foldl
    (fun s r => xorBytes (mixColumns (shiftRows (s.map sbox))) (roundKey ws (r + 1)))
    s0
  xorBytes (shiftRows (s9.map sbox)) (roundKey ws 10)

/-! ## CTR mode (Go crypto/cipher.NewCTR): the counter starts at the IV and
is incremented as a 128-bit big-endian integer for each block. -/

/-- Big-endian byte list to natural number. -/
def bytesToNatBE (bs : List Nat) : Nat := bs.foldl (fun a b => a * 256 + b) 0

/-- Natural number to a fixed-width big-endian byte list. -/
def natToBytesBE (w n : Nat) : List Nat :=
  (List.range w).map (fun i => n / 256 ^ (w - 1 - i) % 256)

/-- Counter block `j` of the CTR stream: the IV plus `j`, mod 2^128. -/
def ctrBlock (iv : List Nat) (j : Nat) : List Nat :=
  natToBytesBE 16 ((bytesToNatBE iv + j) % 2 ^ 128)

/-- Byte `n` of the AES-CTR keystream for `(key, iv)`. -/
def aesCtrKeystream (key iv : List Nat) (n : Nat) : Nat :=
  (aes128Encrypt key (ctrBlock iv (n / 16))).getD (n % 16) 0

/-! ## NStreamCrypt / NCopy (stream.go lines 37-94).

A `cipher.Stream` obtained from `cipher.NewCTR` is determined by `(key, iv)`
plus the number of bytes already XORed; `XORKeyStream` XORs the input with
the next keystream bytes.  `NStreamCrypt.Init` builds two independent such
streams from the same `(key, iv)`, so the state is the pair of stream
positions. -/

/-- XOR a byte list with the keystream `ks` starting at position `pos`
(the semantics of `cipher.Stream.XORKeyStream` for a CTR stream). -/
def cryptBytes (ks : Nat → Nat) : Nat → List Nat → List Nat
  | _, [] => []
  | pos, b :: rest => (b ^^^ ks pos) :: cryptBytes ks (pos + 1) rest

/-- NStreamCrypt: two CTR streams over the same `(key, iv)`, one for the
read direction and one for the write direction (stream.go lines 37-55). -/
structure NStreamCrypt where
  key : List Nat
  iv : List Nat
  rpos : Nat
  wpos : Nat
deriving DecidableEq, Repr

/-- NStreamCrypt.Init: both CTR counters start at 0 (stream.go lines 43-55). -/
def NStreamCrypt.Init (key iv : List Nat) : NStreamCrypt :=
  ⟨key, iv, 0, 0⟩

/-- WCrypt: encrypt through the write stream, advancing it (stream.go 63-65).
Returns the ciphertext and the updated cipher state. -/
def NStreamCrypt.WCrypt (s : NStreamCrypt) (text : List Nat) :
    List Nat × NStreamCrypt :=
  (cryptBytes (aesCtrKeystream s.key s.iv) s.wpos text,
   { s with wpos := s.wpos + text.length })

/-- RCrypt: decrypt through the read stream, advancing it (stream.go 58-60).
Returns the plaintext and the updated cipher state. -/
def NStreamCrypt.RCrypt (s : NStreamCrypt) (text : List Nat) :
    List Nat × NStreamCrypt :=
  (cryptBytes (aesCtrKeystream s.key s.iv) s.rpos text,
   { s with rpos := s.rpos + text.length })

/-- The wire bytes produced by a sequence of `NCopy.Write` calls (stream.go
82-85: each call encrypts its buffer through the write stream and sends the
ciphertext), as performed chunk by chunk by `WCopy` (stream.go 102-117). -/
def writeAll (s : NStreamCrypt) : List (List Nat) → List Nat
  | [] => []
  | c :: cs => (s.WCrypt c).1 ++ writeAll (s.WCrypt c).2 cs

/-- The plaintext produced by a sequence of `NCopy.Read` calls (stream.go
88-94: each call receives a chunk of wire bytes and decrypts it through the
read stream), as performed chunk by chunk by `RCopy` (stream.go 120-135). -/
def readAll (s : NStreamCrypt) : List (List Nat) → List Nat
  | [] => []
  | c :: cs => (s.RCrypt c).1 ++ readAll (s.RCrypt c).2 cs

/-! ## MD5 (Go crypto/md5, used by GetKeyIv in stream.go lines 24-34). -/

/-- The 64 MD5 sine-derived round constants, floor(abs(sin(i+1)) * 2^32). -/
def md5K : List Nat :=
  [3614090360, 3905402710, 606105819, 3250441966, 4118548399, 1200080426, 2821735955, 4249261313,
   1770035416, 2336552879, 4294925233, 2304563134, 1804603682, 4254626195, 2792965006, 1236535329,
   4129170786, 3225465664, 643717713, 3921069994, 3593408605, 38016083, 3634488961, 3889429448,
   568446438, 3275163606, 4107603335, 1163531501, 2850285829, 4243563512, 1735328473, 2368359562,
   4294588738, 2272392833, 1839030562, 4259657740, 2763975236, 1272893353, 4139469664, 3200236656,
   681279174, 3936430074, 3572445317, 76029189, 3654602809, 3873151461, 530742520, 3299628645,
   4096336452, 1126891415, 2878612391, 4237533241, 1700485571, 2399980690, 4293915773, 2240044497,
   1873313359, 4264355552, 2734768916, 1309151649, 4149444226, 3174756917, 718787259, 3951481745]

/-- The MD5 per-step left-rotation amounts. -/
def md5S : List Nat :=
  [7, 12, 17, 22, 7, 12, 17, 22, 7, 12, 17, 22, 7, 12, 17, 22,
   5, 9, 14, 20, 5, 9, 14, 20, 5, 9, 14, 20, 5, 9, 14, 20,
   4, 11, 16, 23, 4, 11, 16, 23, 4, 11, 16, 23, 4, 11, 16, 23,
   6, 10, 15, 21, 6, 10, 15, 21, 6, 10, 15, 21, 6, 10, 15, 21]

/-- Rotate a 32-bit value left by `n`. -/
def rotl32 (x n : Nat) : Nat :=
  ((x <<< n) ||| (x >>> (32 - n))) &&& (2 ^ 32 - 1)

/-- 32-bit bitwise complement. -/
def not32 (x : Nat) : Nat := x ^^^ (2 ^ 32 - 1)

/-- The four MD5 state words. -/
structure Md5State where
  a : Nat
  b : Nat
  c : Nat
  d : Nat
deriving DecidableEq, Repr

/-- The MD5 initial state. -/
def md5Init : Md5State := ⟨0x67452301, 0xefcdab89, 0x98badcfe, 0x10325476⟩

/-- One of the 64 MD5 steps applied to the working state, for chunk words
`m` and step index `i`. -/
def md5Step (m : List Nat) (s : Md5State) (i : Nat) : Md5State :=
  let f :=
    if i < 16 then (s.b &&& s.c) ||| (not32 s.b &&& s.d)
    else if i < 32 then (s.d &&& s.b) ||| (not32 s.d &&& s.c)
    else if i < 48 then s.b ^^^ s.c ^^^ s.d
    else s.c ^^^ (s.b ||| not32 s.d)
  let g :=
    if i < 16 then i
    else if i < 32 then (5 * i + 1) % 16
    else if i < 48 then (3 * i + 5) % 16
    else 7 * i % 16
  let f2 := (f + s.a + md5K.getD i 0 + m.getD g 0) % 2 ^ 32
  ⟨s.d, (s.b + rotl32 f2 (md5S.getD i 0)) % 2 ^ 32, s.b, s.c⟩

/-- The 16 little-endian 32-bit words of a 64-byte chunk. -/
def md5ChunkWords (chunk : List Nat) : List Nat :=
  (List.range 16).map (fun i =>
    chunk.getD (4 * i) 0 + chunk.getD (4 * i + 1) 0 * 256 +
      chunk.getD (4 * i + 2) 0 * 256 ^ 2 + chunk.getD (4 * i + 3) 0 * 256 ^ 3)

/-- MD5 compression of one 64-byte chunk into the running state. -/
def md5Compress (s : Md5State) (chunk : List Nat) : Md5State :=
  let m := md5ChunkWords chunk
  let w := (List.range 64).foldl (md5Step m) s
  ⟨(s.a + w.a) % 2 ^ 32, (s.b + w.b) % 2 ^ 32,
   (s.c + w.c) % 2 ^ 32, (s.d + w.d) % 2 ^ 32⟩

/-- Little-endian 4-byte serialization of a 32-bit word. -/
def wordLE (x : Nat) : List Nat :=
  [x % 256, x / 256 % 256, x / 256 ^ 2 % 256, x / 256 ^ 3 % 256]

/-- Little-endian 8-byte serialization of a 64-bit value. -/
def qwordLE (x : Nat) : List Nat :=
  (List.range 8).map (fun i => x / 256 ^ i % 256)

/-- MD5 padding: a 0x80 byte, zeros to 56 mod 64, then the bit length. -/
def md5Pad (msg : List Nat) : List Nat :=
  msg ++ [128] ++ List.replicate ((119 - msg.length % 64) % 64) 0 ++
    qwordLE (8 * msg.length % 2 ^ 64)

/-- MD5 digest (16 bytes) of a byte string. -/
def md5 (msg : List Nat) : List Nat :=
  let padded := md5Pad msg
  let s := ((List.range (padded.length / 64)).map
    (fun i => (padded.drop (64 * i)).take 64)).foldl md5Compress md5Init
  wordLE s.a ++ wordLE s.b ++ wordLE s.c ++ wordLE s.d

/-! ## GetKeyIv (stream.go lines 24-34). -/

/-- GetKeyIv: split the secret at floor(len/2); the key is the MD5 of the
first half and the iv the MD5 of the second half. -/
def GetKeyIv (passwd : List Nat) : List Nat × List Nat :=
  let split := passwd.length / 2
  (md5 (passwd.take split), md5 (passwd.drop split))

/-! ## Configuration (pmap.go lines 22-46).  Secrets are byte strings,
ports and connection identifiers are `Nat`. -/

/-- ServerConfig: shared key, control port, optional port range. -/
structure ServerConfig where
  key : List Nat
  port : Nat
  limitPort : List Nat
deriving DecidableEq, Repr

/-- ClientMapConfig: inner address and outer port of one mapping. -/
structure ClientMapConfig where
  inner : String
  outer : Nat
deriving DecidableEq, Repr

/-- ClientConfig: shared key, server address, mappings. -/
structure ClientConfig where
  key : List Nat
  server : String
  map : List ClientMapConfig
deriving DecidableEq, Repr

/-! ## Pending-slot table (pmap.go lines 72-121). -/

/-- RetryTime, WaitTimeOut in seconds; WaitMax slots (pmap.go 72-78). -/
def WaitTimeOut : Int := 30

/-- Size of the WaitWorker array (pmap.go line 77). -/
def WaitMax : Nat := 10

/-- Worker: a pending external connection and its expiry time
(pmap.go lines 86-89). -/
structure Worker where
  conn : Nat
  lastTime : Int
deriving DecidableEq, Repr

/-- The outcome of `Resource.NewConn`: the returned pair, the updated
WaitWorker array, and the connections it closed. -/
structure NewConnResult where
  ok : Bool
  id : Nat
  table : List (Option Worker)
  closed : List Nat
deriving DecidableEq, Repr

/-- The worker stored for a newly admitted connection:
`LastTime = time.Now().Add(WaitTimeOut).Unix()` (pmap.go 104-107). -/
def freshWorker (now : Int) (conn : Nat) : Worker :=
  ⟨conn, now + WaitTimeOut⟩

/-- The single scan of `Resource.NewConn` (pmap.go 102-119): at each index,
a nil slot is taken; an expired slot (`now > LastTime`) has its connection
closed and is taken; otherwise the scan moves on.  `i` is the index of the
head of the remaining list. -/
def newConnAux (now : Int) (conn : Nat) : Nat → List (Option Worker) → NewConnResult
  | _, [] => ⟨false, 0, [], []⟩
  | i, none :: rest => ⟨true, i, some (freshWorker now conn) :: rest, []⟩
  | i, some w :: rest =>
    if w.lastTime < now then
      ⟨true, i, some (freshWorker now conn) :: rest, [w.conn]⟩
    else
      let r := newConnAux now conn (i + 1) rest
      ⟨r.ok, r.id, some w :: r.table, r.closed⟩

/-- Resource.NewConn (pmap.go lines 99-121). -/
def NewConn (now : Int) (conn : Nat) (t : List (Option Worker)) : NewConnResult :=
  newConnAux now conn 0 t

/-- A slot the scan of `NewConn` accepts: vacant or expired. -/
def slotFree (now : Int) : Option Worker → Bool
  | none => true
  | some w => decide (w.lastTime < now)

/-- Index of the first slot accepted by the scan of `NewConn`. -/
def firstFreeIdx (now : Int) : List (Option Worker) → Option Nat
  | [] => none
  | s :: rest =>
    if slotFree now s then some 0 else (firstFreeIdx now rest).map (· + 1)

/-- Index of the first vacant slot. -/
def firstNoneIdx : List (Option Worker) → Option Nat
  | [] => none
  | none :: _ => some 0
  | some _ :: rest => (firstNoneIdx rest).map (· + 1)

/-- Index of the first expired occupied slot. -/
def firstExpiredIdx (now : Int) : List (Option Worker) → Option Nat
  | [] => none
  | none :: rest => (firstExpiredIdx now rest).map (· + 1)
  | some w :: rest =>
    if w.lastTime < now then some 0 else (firstExpiredIdx now rest).map (· + 1)

/-- The connection closed when a slot is reclaimed: the stored one, if any. -/
def closedOf : Option Worker → List Nat
  | none => []
  | some w => [w.conn]

/-- Modelled from the amended claim C2: a single scan places the new worker
at the first index whose slot is vacant or expired, closing the expired
occupant if there was one; with no such index it returns `(false, 0)` and
leaves the table untouched. -/
def newConnAmended (now : Int) (conn : Nat) (t : List (Option Worker)) :
    NewConnResult :=
  match firstFreeIdx now t with
  | some i => ⟨true, i, t.set i (some (freshWorker now conn)), closedOf (t.getD i none)⟩
  | none => ⟨false, 0, t, []⟩

/-- Modelled from the claim C2 as stated: a vacant index is chosen in
preference to any expired occupied index. -/
def newConnClaimed (now : Int) (conn : Nat) (t : List (Option Worker)) :
    NewConnResult :=
  match firstNoneIdx t with
  | some i => ⟨true, i, t.set i (some (freshWorker now conn)), []⟩
  | none =>
    match firstExpiredIdx now t with
    | some i => ⟨true, i, t.set i (some (freshWorker now conn)), closedOf (t.getD i none)⟩
    | none => ⟨false, 0, t, []⟩

/-! ## Per-port accept loop step (pmap.go lines 162-184). -/

/-- The observable outcome of one iteration of the accept loop. -/
structure ListenStep where
  table : List (Option Worker)
  sent : List Nat
  closed : List Nat
deriving DecidableEq, Repr

/-- One accepted external connection `outcon` (pmap.go 165-181): on a
successful allocation the 4-byte NEWSOCKET frame is written on the control
connection; otherwise `outcon` is closed. -/
def dolistenStep (now : Int) (port : Nat) (outcon : Nat)
    (t : List (Option Worker)) : ListenStep :=
  let r := NewConn now outcon t
  if r.ok then ⟨r.table, [NEWSOCKET, port >>> 8, port &&& 255, r.id], r.closed⟩
  else ⟨r.table, [], r.closed ++ [outcon]⟩

/-! ## Server NEWCONN handoff (pmap.go lines 263-298). -/

/-- The observable outcome of the NEWCONN branch of the server's `doconn`:
connections closed, the splice launched (side-channel conn paired with the
pending worker conn), the cipher material it was wrapped with, and the
WaitWorker table afterwards (`none` when no Resource existed). -/
structure HandoffResult where
  closed : List Nat
  splice : Option (Nat × Nat)
  keyIv : Option (List Nat × List Nat)
  table : Option (List (Option Worker))
deriving DecidableEq, Repr

/-- The NEWCONN branch (pmap.go 263-298) for side-channel `conn` carrying
slot index `id`, against the Resource table `res` looked up for the
requested port (`none` when `resourceMap[pt]` is nil).  Stored worker
connections are non-nil (they come from `NewConn`), so the code's
`wk.Conn != nil` guard always passes and is folded into the close. -/
def doconnNewConn (serverKey : List Nat) (now : Int)
    (res : Option (List (Option Worker))) (id conn : Nat) : HandoffResult :=
  match res with
  | none => ⟨[conn], none, none, none⟩
  | some t =>
    if t.length ≤ id then ⟨[conn], none, none, some t⟩
    else
      match t.getD id none with
      | none => ⟨[conn], none, none, some t⟩
      | some wk =>
        if wk.lastTime < now then ⟨[wk.conn, conn], none, none, some t⟩
        else ⟨[], some (conn, wk.conn), some (GetKeyIv serverKey),
              some (t.set id none)⟩

/-! ## Server START handling (pmap.go lines 196-262). -/

/-- The length prefix as assembled by the shift-or chain of pmap.go 204. -/
def readU64BE (b : List Nat) : Nat :=
  (b.getD 0 0) <<< 56 ||| (b.getD 1 0) <<< 48 ||| (b.getD 2 0) <<< 40 |||
    (b.getD 3 0) <<< 32 ||| (b.getD 4 0) <<< 24 ||| (b.getD 5 0) <<< 16 |||
    (b.getD 6 0) <<< 8 ||| (b.getD 7 0)

/-- The observable outcome of the START branch: reply tags written, outer
ports for which a Resource was inserted, whether the payload bytes were
read, and whether the connection was closed (the branch defers a close, so
this is always true). -/
structure StartResult where
  sent : List Nat
  opened : List Nat
  payloadRead : Bool
  connClosed : Bool
deriving DecidableEq, Repr

/-- The port-opening loop of pmap.go 224-248: each mapping is checked
against `limitPort` whenever that list has at least two values (using its
first two), then bound (`bindOk` abstracts whether `net.Listen` succeeds);
the first failure replies with its error tag and stops; success of the
whole loop replies SUCCESS.  Returns (reply tags, opened outer ports). -/
def openPorts (limit : List Nat) (bindOk : Nat → Bool) :
    List ClientMapConfig → List Nat × List Nat
  | [] => ([SUCCESS], [])
  | cc :: rest =>
    if 2 ≤ limit.length ∧ (cc.outer < limit.getD 0 0 ∨ limit.getD 1 0 < cc.outer) then
      ([ERROR_LIMIT_PORT], [])
    else if bindOk cc.outer = false then ([ERROR_BUSY], [])
    else
      let r := openPorts limit bindOk rest
      (r.1, cc.outer :: r.2)

/-- The START branch (pmap.go 196-248) on the byte stream `input` that
follows the START tag.  `parse` abstracts `json.Unmarshal` (an external
decoder; `none` models a decode error) and `bindOk` abstracts `net.Listen`
on an outer port.  Short reads of the length prefix or the payload end the
handler; the branch closes the connection on every path (the deferred
close at pmap.go 197). -/
def doStart (cfg : ServerConfig) (bindOk : Nat → Bool)
    (parse : List Nat → Option ClientConfig) (input : List Nat) : StartResult :=
  if input.length < 8 then ⟨[], [], false, true⟩
  else
    let ilen := readU64BE (input.take 8)
    if 1024 * 1024 < ilen then ⟨[], [], false, true⟩
    else if input.length - 8 < ilen then ⟨[], [], false, true⟩
    else
      match parse ((input.drop 8).take ilen) with
      | none => ⟨[], [], true, true⟩
      | some cli =>
        if cli.key ≠ cfg.key then ⟨[ERROR_PWD], [], true, true⟩
        else
          let r := openPorts cfg.limitPort bindOk cli.map
          ⟨r.1, r.2, true, true⟩

/-- The key and iv the server derives for a side-channel (pmap.go 288). -/
def serverKeyIv (cfg : ServerConfig) : List Nat × List Nat :=
  GetKeyIv cfg.key

/-- The key and iv the client derives for a side-channel (pmap.go 336). -/
def clientKeyIv (cfg : ClientConfig) : List Nat × List Nat :=
  GetKeyIv cfg.key

/-! ## Client session (pmap.go lines 316-421). -/

/-- An observable action of the client's NEWSOCKET handling, in order. -/
inductive CEvent where
  | dialSide : CEvent
  | dialInner : String → CEvent
  | writeSide : List Nat → CEvent
  | closeSide : CEvent
  | splice : CEvent
deriving DecidableEq, Repr

/-- The client's `doconn` (pmap.go 326-341): dial the inner address taken
from `portmap`; on failure close the side-channel and stop; on success
write the NEWCONN tag and the 3-byte payload in plaintext on the
side-channel, then wrap it and launch the splice. -/
def doconnClient (portmapF : Nat → String) (sport : Nat) (sp : List Nat)
    (innerOk : Bool) : List CEvent :=
  if innerOk then
    [CEvent.dialInner (portmapF sport), CEvent.writeSide [NEWCONN],
     CEvent.writeSide sp, CEvent.splice]
  else
    [CEvent.dialInner (portmapF sport), CEvent.closeSide]

/-- The NEWSOCKET case of the client event loop (pmap.go 400-411): read the
3-byte payload `sp`, dial a fresh side-channel to the server (`sideOk`
abstracts the dial outcome; on failure the session returns), then run
`doconn` on it. -/
def handleNewSocket (portmapF : Nat → String) (sp : List Nat)
    (sideOk innerOk : Bool) : List CEvent :=
  let sport := (sp.getD 0 0) <<< 8 + sp.getD 1 0
  if sideOk then CEvent.dialSide :: doconnClient portmapF sport sp innerOk
  else [CEvent.dialSide]

/-- Modelled from the claim C4 as stated: the client writes the NEWCONN tag
and the payload on the fresh side-channel and only then dials the inner
address; on inner-dial failure the side-channel is closed. -/
def handleNewSocketClaimed (portmapF : Nat → String) (sp : List Nat)
    (innerOk : Bool) : List CEvent :=
  let sport := (sp.getD 0 0) <<< 8 + sp.getD 1 0
  if innerOk then
    [CEvent.dialSide, CEvent.writeSide [NEWCONN], CEvent.writeSide sp,
     CEvent.dialInner (portmapF sport), CEvent.splice]
  else
    [CEvent.dialSide, CEvent.writeSide [NEWCONN], CEvent.writeSide sp,
     CEvent.dialInner (portmapF sport), CEvent.closeSide]

/-- The outcome of one iteration of the client's retry loop. -/
structure SessionResult where
  isContinue : Bool
  slept : Bool
deriving DecidableEq, Repr

/-- One attempt of the client's retry loop (pmap.go 342-420).  `dialOk`
abstracts the dial to the server; `replyRead` is the post-auth reply byte,
`none` when the reply read fails, in which case the 1-byte buffer keeps its
zero initialization (pmap.go 367-368).  The reply switch (369-388) decides
`isContinue`; the command loop (395-418) only ever returns with
`isContinue` untouched (read error, side-channel dial error, or IDLE-reply
write error).  The deferred `time.Sleep(RetryTime)` (345) runs on every
path, so `slept` is true throughout. -/
def sessionAttempt (dialOk : Bool) (replyRead : Option Nat) : SessionResult :=
  if dialOk = false then ⟨true, true⟩
  else
    let recv := match replyRead with | some b => b | none => 0
    if recv = ERROR_PWD then ⟨false, true⟩
    else if recv = ERROR_BUSY then ⟨false, true⟩
    else if recv = ERROR_LIMIT_PORT then ⟨false, true⟩
    else if recv ≠ SUCCESS then ⟨false, true⟩
    else ⟨true, true⟩

/-! ## Concrete tables and claim translations used by counterexamples. -/

/-- A table whose first slot is expired at time 100 and whose second slot is
vacant. -/
def c2table : List (Option Worker) := some ⟨7, 0⟩ :: List.replicate 9 none

/-- Claim C3 as stated: the outer-port constraint applies only when
limitPort holds exactly two values; any other length sends no
ERROR_LIMIT_PORT. -/
def limitPortClaimC3 : Prop :=
  ∀ (limit : List Nat) (bindOk : Nat → Bool) (maps : List ClientMapConfig),
    limit.length ≠ 2 → ERROR_LIMIT_PORT ∉ (openPorts limit bindOk maps).1

/-- Claim C5 as stated: the retry loop stops exactly when a post-auth reply
byte was received and is non-SUCCESS; a failed reply read (a transport
failure) leaves the loop running. -/
def retryClaimC5 : Prop :=
  ∀ (dialOk : Bool) (replyRead : Option Nat),
    ((sessionAttempt dialOk replyRead).isContinue = false ↔
      dialOk = true ∧ ∃ b, replyRead = some b ∧ b ≠ SUCCESS)

/-- A full table whose slot 0 is expired at time 5. -/
def c8TableExpired : List (Option Worker) := some ⟨4, 1⟩ :: List.replicate 9 none

/-- A table whose slot 0 is pending and unexpired at time 5. -/
def c8TableLive : List (Option Worker) := some ⟨4, 30⟩ :: List.replicate 9 none

/-- A table whose slot 0 is expired at time 20. -/
def c10table : List (Option Worker) := some ⟨5, 10⟩ :: List.replicate 9 none

/-! ## Lemmas about the CTR stream. -/

theorem cryptBytes_append (ks : Nat → Nat) (a b : List Nat) : ∀ pos,
    cryptBytes ks pos (a ++ b) =
      cryptBytes ks pos a ++ cryptBytes ks (pos + a.length) b := by
  induction a with
  | nil => intro pos; simp [cryptBytes]
  | cons x a ih =>
    intro pos
    simp only [List.cons_append, cryptBytes, List.length_cons, List.append_eq]
    rw [ih (pos + 1), show pos + 1 + a.length = pos + (a.length + 1) by omega]

theorem cryptBytes_cryptBytes (ks : Nat → Nat) (l : List Nat) : ∀ pos,
    cryptBytes ks pos (cryptBytes ks pos l) = l := by
  induction l with
  | nil => intro pos; rfl
  | cons x l ih =>
    intro pos
    simp only [cryptBytes, ih (pos + 1)]
    rw [Nat.xor_assoc, Nat.xor_self, Nat.xor_zero]

theorem writeAll_eq (cs : List (List Nat)) : ∀ s : NStreamCrypt,
    writeAll s cs = cryptBytes (aesCtrKeystream s.key s.iv) s.wpos cs.flatten := by
  induction cs with
  | nil => intro s; rfl
  | cons c cs ih =>
    intro s
    simp only [writeAll, NStreamCrypt.WCrypt, List.flatten_cons, ih,
      cryptBytes_append]

theorem readAll_eq (ds : List (List Nat)) : ∀ s : NStreamCrypt,
    readAll s ds = cryptBytes (aesCtrKeystream s.key s.iv) s.rpos ds.flatten := by
  induction ds with
  | nil => intro s; rfl
  | cons d ds ih =>
    intro s
    simp only [readAll, NStreamCrypt.RCrypt, List.flatten_cons, ih,
      cryptBytes_append]

/-- C1: for every byte string, encrypting it through one wrapped
connection's write stream and decrypting it through a peer wrapped
connection's read stream, both cipher instances initialized from the same
`(key, iv)` with both CTR counters at 0, yields the original byte string,
regardless of how the bytes are split across successive write chunks `cs`
and read chunks `ds`. -/
theorem c1_cipher_roundtrip (key iv : List Nat) (cs ds : List (List Nat))
    (h : ds.flatten = writeAll (NStreamCrypt.Init key iv) cs) :
    readAll (NStreamCrypt.Init key iv) ds = cs.flatten := by
  rw [readAll_eq, h, writeAll_eq]
  exact cryptBytes_cryptBytes _ _ 0

/-- C1 witness: the hypotheses of the round-trip theorem hold at a concrete
split of a concrete buffer. -/
theorem c1_cipher_roundtrip_witness :
    ([writeAll (NStreamCrypt.Init (List.replicate 16 0) (List.replicate 16 0))
        [[1, 2], [3]]].flatten
      = writeAll (NStreamCrypt.Init (List.replicate 16 0) (List.replicate 16 0))
        [[1, 2], [3]]) ∧
    readAll (NStreamCrypt.Init (List.replicate 16 0) (List.replicate 16 0))
        [writeAll (NStreamCrypt.Init (List.replicate 16 0) (List.replicate 16 0))
          [[1, 2], [3]]]
      = ([[1, 2], [3]] : List (List Nat)).flatten :=
  ⟨by simp, c1_cipher_roundtrip _ _ _ _ (by simp)⟩

/-! ## Lemmas about the pending-slot table. -/

theorem newConnAux_eq (now : Int) (conn : Nat) :
    ∀ (t : List (Option Worker)) (i : Nat),
      newConnAux now conn i t =
        match firstFreeIdx now t with
        | some j =>
            ⟨true, i + j, t.set j (some (freshWorker now conn)),
             closedOf (t.getD j none)⟩
        | none => ⟨false, 0, t, []⟩ := by
  intro t
  induction t with
  | nil => intro i; rfl
  | cons s rest ih =>
    intro i
    match s with
    | none => simp [newConnAux, firstFreeIdx, slotFree, closedOf]
    | some w =>
      by_cases hw : w.lastTime < now
      · simp [newConnAux, firstFreeIdx, slotFree, hw, closedOf]
      · simp only [newConnAux, if_neg hw, firstFreeIdx, slotFree,
          decide_eq_true_eq, hw, if_false, ih (i + 1)]
        cases h : firstFreeIdx now rest with
        | none => simp
        | some j =>
          simp [NewConnResult.mk.injEq]
          omega

/-- NewConn equals the single-scan first-free characterization. -/
theorem newConn_eq (now : Int) (conn : Nat) (t : List (Option Worker)) :
    NewConn now conn t = newConnAmended now conn t := by
  unfold NewConn newConnAmended
  rw [newConnAux_eq]
  cases firstFreeIdx now t <;> simp

theorem firstFreeIdx_eq_none (now : Int) (t : List (Option Worker))
    (hall : ∀ s ∈ t, slotFree now s = false) :
    firstFreeIdx now t = none := by
  induction t with
  | nil => rfl
  | cons s rest ih =>
    have hs := hall s (List.mem_cons_self s rest)
    simp only [firstFreeIdx, hs, if_false, Bool.false_eq_true]
    rw [ih (fun x hx => hall x (List.mem_cons_of_mem s hx))]
    rfl

/-- C2 (amended): NewConn performs one scan and places the offered
connection at the first index whose slot is vacant or expired
(`now > LastTime`), with expiry `now + WAIT_TIMEOUT`, closing the expired
occupant when there is one, and returns `(true, that index)`; with no such
index it returns `(false, 0)` and leaves the table unchanged. -/
theorem c2_slot_allocation (now : Int) (conn : Nat)
    (t : List (Option Worker)) :
    NewConn now conn t = newConnAmended now conn t :=
  newConn_eq now conn t

/-- C2 counterexample: with slot 0 expired and slot 1 vacant, the code
reuses slot 0 while the claim as stated places the connection at the first
vacant index, slot 1. -/
theorem c2_slot_allocation_counterexample :
    NewConn 100 42 c2table ≠ newConnClaimed 100 42 c2table := by
  decide

/-- C9: when every slot holds a non-expired pending connection, NewConn
returns `(false, 0)`, leaves the table entirely unchanged, closes no stored
connection and does not close the offered connection; the accept loop, its
caller, is the one that closes it (and sends no NEWSOCKET frame). -/
theorem c9_alloc_failure_atomicity (now : Int) (conn port : Nat)
    (t : List (Option Worker)) (_hlen : t.length = WaitMax)
    (hall : ∀ s ∈ t, slotFree now s = false) :
    NewConn now conn t = ⟨false, 0, t, []⟩ ∧
    dolistenStep now port conn t = ⟨t, [], [conn]⟩ := by
  have h1 : NewConn now conn t = ⟨false, 0, t, []⟩ := by
    rw [newConn_eq]
    unfold newConnAmended
    rw [firstFreeIdx_eq_none now t hall]
  refine ⟨h1, ?_⟩
  unfold dolistenStep
  rw [h1]
  simp

/-- C9 witness: a full table of ten unexpired pending connections. -/
theorem c9_alloc_failure_atomicity_witness :
    NewConn 0 3 (List.replicate 10 (some ⟨1, 50⟩)) =
      ⟨false, 0, List.replicate 10 (some ⟨1, 50⟩), []⟩ ∧
    dolistenStep 0 9100 3 (List.replicate 10 (some ⟨1, 50⟩)) =
      ⟨List.replicate 10 (some ⟨1, 50⟩), [], [3]⟩ :=
  c9_alloc_failure_atomicity 0 3 9100 _ (by decide) (by decide)

/-- C10: rejecting a NEWCONN for an expired slot closes the stale stored
connection and the side-channel but leaves the WaitWorker array untouched,
slot `id` included; a later NewConn whose scan reaches index `id` reclaims
it through the expiry branch, closing the stale connection. -/
theorem c10_expired_slot_frame (key : List Nat) (now nowLater : Int)
    (t : List (Option Worker)) (id conn conn2 : Nat) (wk : Worker)
    (hid : id < t.length) (hslot : t.getD id none = some wk)
    (hexp : wk.lastTime < now)
    (hfirst : firstFreeIdx nowLater t = some id) :
    doconnNewConn key now (some t) id conn =
      ⟨[wk.conn, conn], none, none, some t⟩ ∧
    NewConn nowLater conn2 t =
      ⟨true, id, t.set id (some (freshWorker nowLater conn2)), [wk.conn]⟩ := by
  constructor
  · simp only [doconnNewConn]
    rw [if_neg (by omega), hslot]
    simp [hexp]
  · rw [newConn_eq]
    unfold newConnAmended
    rw [hfirst]
    show NewConnResult.mk true id (t.set id (some (freshWorker nowLater conn2)))
      (closedOf (t.getD id none)) = _
    rw [hslot]
    rfl

/-- C10 witness: slot 0 of `c10table` is expired at time 20 and is the
first free index at that time. -/
theorem c10_expired_slot_frame_witness :
    doconnNewConn [] 20 (some c10table) 0 99 =
      ⟨[5, 99], none, none, some c10table⟩ ∧
    NewConn 20 77 c10table =
      ⟨true, 0, c10table.set 0 (some (freshWorker 20 77)), [5]⟩ :=
  c10_expired_slot_frame [] 20 20 c10table 0 99 77 ⟨5, 10⟩
    (by decide) (by decide) (by decide) (by decide)

/-- C8: the NEWCONN handoff closes the side-channel without launching any
splice when no Resource exists for the port, or the slot index is at least
WAIT_MAX, or the slot is vacant, or the slot is expired (`expiresAt < now`,
which also closes the stale stored connection); otherwise it wraps the
side-channel with the `(key, iv)` derived from the server key, launches the
splice for the pending slot's connection, and clears slot `id` to None. -/
theorem c8_newconn_validation (key : List Nat) (now : Int) (id conn : Nat) :
    (doconnNewConn key now none id conn = ⟨[conn], none, none, none⟩) ∧
    (∀ t : List (Option Worker), t.length = WaitMax → WaitMax ≤ id →
      doconnNewConn key now (some t) id conn = ⟨[conn], none, none, some t⟩) ∧
    (∀ t : List (Option Worker), t.length = WaitMax → id < WaitMax →
      t.getD id none = none →
      doconnNewConn key now (some t) id conn = ⟨[conn], none, none, some t⟩) ∧
    (∀ (t : List (Option Worker)) (wk : Worker), t.length = WaitMax →
      id < WaitMax → t.getD id none = some wk → wk.lastTime < now →
      doconnNewConn key now (some t) id conn =
        ⟨[wk.conn, conn], none, none, some t⟩) ∧
    (∀ (t : List (Option Worker)) (wk : Worker), t.length = WaitMax →
      id < WaitMax → t.getD id none = some wk → ¬ wk.lastTime < now →
      doconnNewConn key now (some t) id conn =
        ⟨[], some (conn, wk.conn), some (GetKeyIv key), some (t.set id none)⟩) := by
  refine ⟨rfl, ?_, ?_, ?_, ?_⟩
  · intro t hlen hge
    simp only [doconnNewConn]
    rw [if_pos (by omega)]
  · intro t hlen hlt hslot
    simp only [doconnNewConn]
    rw [if_neg (by omega), hslot]
  · intro t wk hlen hlt hslot hexp
    simp only [doconnNewConn]
    rw [if_neg (by omega), hslot]
    simp [hexp]
  · intro t wk hlen hlt hslot hlive
    simp only [doconnNewConn]
    rw [if_neg (by omega), hslot]
    simp [hlive]

/-- C8 witness: the five handoff cases at concrete inputs: no Resource,
out-of-range index, vacant slot, expired slot, and a live slot that is
spliced and cleared. -/
theorem c8_newconn_validation_witness :
    (doconnNewConn [] 5 none 0 9 = ⟨[9], none, none, none⟩) ∧
    (doconnNewConn [] 5 (some (List.replicate 10 none)) 12 9 =
      ⟨[9], none, none, some (List.replicate 10 none)⟩) ∧
    (doconnNewConn [] 5 (some (List.replicate 10 none)) 0 9 =
      ⟨[9], none, none, some (List.replicate 10 none)⟩) ∧
    (doconnNewConn [] 5 (some c8TableExpired) 0 9 =
      ⟨[4, 9], none, none, some c8TableExpired⟩) ∧
    (doconnNewConn [] 5 (some c8TableLive) 0 9 =
      ⟨[], some (9, 4), some (GetKeyIv []), some (c8TableLive.set 0 none)⟩) :=
  ⟨(c8_newconn_validation [] 5 0 9).1,
   (c8_newconn_validation [] 5 12 9).2.1 _ (by decide) (by decide),
   (c8_newconn_validation [] 5 0 9).2.2.1 _ (by decide) (by decide) (by decide),
   (c8_newconn_validation [] 5 0 9).2.2.2.1 _ ⟨4, 1⟩ (by decide) (by decide)
     (by decide) (by decide),
   (c8_newconn_validation [] 5 0 9).2.2.2.2 _ ⟨4, 30⟩ (by decide) (by decide)
     (by decide) (by decide)⟩

/-! ## START handling theorems. -/

/-- C7: a START frame whose big-endian u64 declared length exceeds 2^20
makes the server close the connection with no reply tag sent, the payload
unread, and no Resource created. -/
theorem c7_oversize_start (cfg : ServerConfig) (bindOk : Nat → Bool)
    (parse : List Nat → Option ClientConfig) (input : List Nat)
    (hlen : 8 ≤ input.length)
    (hbig : 1024 * 1024 < readU64BE (input.take 8)) :
    doStart cfg bindOk parse input = ⟨[], [], false, true⟩ := by
  unfold doStart
  rw [if_neg (by omega), if_pos hbig]

/-- C7 witness: an all-0xFF length prefix declares far more than 2^20
bytes. -/
theorem c7_oversize_start_witness :
    8 ≤ (List.replicate 8 255 : List Nat).length ∧
    1024 * 1024 < readU64BE ((List.replicate 8 255 : List Nat).take 8) ∧
    doStart ⟨[], 0, []⟩ (fun _ => true) (fun _ => none) (List.replicate 8 255) =
      ⟨[], [], false, true⟩ :=
  ⟨by decide, by decide,
   c7_oversize_start ⟨[], 0, []⟩ (fun _ => true) (fun _ => none) _
     (by decide) (by decide)⟩

/-- C3 (amended): the outer-port constraint is applied whenever limitPort
holds at least two values, using its first two; with fewer than two values
no constraint is applied and no ERROR_LIMIT_PORT is ever sent. -/
theorem c3_limit_port_policy (limit : List Nat) (bindOk : Nat → Bool) :
    (∀ maps : List ClientMapConfig, limit.length < 2 →
      ERROR_LIMIT_PORT ∉ (openPorts limit bindOk maps).1) ∧
    (∀ (cc : ClientMapConfig) (rest : List ClientMapConfig),
      2 ≤ limit.length →
      (cc.outer < limit.getD 0 0 ∨ limit.getD 1 0 < cc.outer) →
      openPorts limit bindOk (cc :: rest) = ([ERROR_LIMIT_PORT], [])) := by
  constructor
  · intro maps hlt
    induction maps with
    | nil =>
      simp [openPorts, ERROR_LIMIT_PORT, SUCCESS]
    | cons cc rest ih =>
      simp only [openPorts]
      rw [if_neg (by rintro ⟨h2, -⟩; omega)]
      by_cases hb : bindOk cc.outer = false
      · rw [if_pos hb]
        simp [ERROR_LIMIT_PORT, ERROR_BUSY]
      · rw [if_neg hb]
        simpa using ih
  · intro cc rest h2 hviol
    simp only [openPorts]
    rw [if_pos ⟨h2, hviol⟩]

/-- C3 counterexample: a three-valued limitPort still rejects an
out-of-range outer port with ERROR_LIMIT_PORT, refuting the claim that any
length other than two means no constraint. -/
theorem c3_limit_port_counterexample : ¬ limitPortClaimC3 := by
  intro h
  exact h [100, 200, 300] (fun _ => true) [⟨"10.0.0.1:80", 50⟩]
    (by decide) (by decide)

/-- C3 witness: a one-valued limitPort never sends ERROR_LIMIT_PORT, and a
three-valued one applies the constraint of its first two values. -/
theorem c3_limit_port_policy_witness :
    ERROR_LIMIT_PORT ∉ (openPorts [100] (fun _ => true) [⟨"a", 5⟩]).1 ∧
    openPorts [100, 200, 300] (fun _ => true) [⟨"a", 50⟩] =
      ([ERROR_LIMIT_PORT], []) :=
  ⟨(c3_limit_port_policy [100] (fun _ => true)).1 [⟨"a", 5⟩] (by decide),
   (c3_limit_port_policy [100, 200, 300] (fun _ => true)).2 ⟨"a", 50⟩ []
     (by decide) (by decide)⟩

/-! ## Client session theorems. -/

/-- C4 (amended): on a NEWSOCKET notification the client dials a fresh
side-channel to the server, then dials the mapping's inner address, and
only on inner-dial success writes the NEWCONN tag and the 3-byte payload
in plaintext on the side-channel before splicing; on inner-dial failure
the side-channel is closed with nothing written; a failed side-channel
dial ends the session with no further action. -/
theorem c4_newsocket_order (pm : Nat → String) (sp : List Nat)
    (innerOk : Bool) :
    handleNewSocket pm sp true innerOk =
      CEvent.dialSide ::
        CEvent.dialInner (pm ((sp.getD 0 0) <<< 8 + sp.getD 1 0)) ::
        (if innerOk then
          [CEvent.writeSide [NEWCONN], CEvent.writeSide sp, CEvent.splice]
         else [CEvent.closeSide]) ∧
    handleNewSocket pm sp false innerOk = [CEvent.dialSide] := by
  cases innerOk <;> simp [handleNewSocket, doconnClient]

/-- C4 counterexample: with both dials succeeding, the code's event order
dials the inner address before writing NEWCONN, not after, refuting the
claimed order. -/
theorem c4_newsocket_order_counterexample :
    handleNewSocket (fun _ => "127.0.0.1:6379") [35, 140, 5] true true ≠
      handleNewSocketClaimed (fun _ => "127.0.0.1:6379") [35, 140, 5] true := by
  decide

/-- C5 (amended): the retry loop stops exactly when the dial succeeded and
the effective post-auth reply byte, which is 0 when the reply read fails
because the buffer keeps its zero initialization, is not SUCCESS; a dial
failure keeps the loop running, and the deferred 1-second delay runs on
every path before the next attempt. -/
theorem c5_retry_policy (dialOk : Bool) (replyRead : Option Nat) :
    ((sessionAttempt dialOk replyRead).isContinue = false ↔
      dialOk = true ∧ replyRead.getD 0 ≠ SUCCESS) ∧
    (sessionAttempt dialOk replyRead).slept = true := by
  cases dialOk with
  | false => simp [sessionAttempt]
  | true =>
    cases replyRead with
    | none => simp [sessionAttempt, SUCCESS, ERROR_PWD, ERROR_BUSY,
        ERROR_LIMIT_PORT]
    | some b =>
      simp only [sessionAttempt, Option.getD_some]
      split_ifs with h1 h2 h3 h4 <;>
        simp_all [SUCCESS, ERROR_PWD, ERROR_BUSY, ERROR_LIMIT_PORT]

/-- C5 counterexample: a failed reply read (a transport error during the
session) terminates the retry loop, refuting the claim that every
transport-level failure leaves the loop running. -/
theorem c5_retry_policy_counterexample : ¬ retryClaimC5 := by
  intro h
  obtain ⟨-, b, hb, -⟩ := (h true none).mp (by decide)
  exact Option.noConfusion hb

/-! ## Key/IV derivation theorems. -/

theorem md5_length (msg : List Nat) : (md5 msg).length = 16 := by
  simp [md5, wordLE]

/-- C6: both peers derive the cipher material by splitting the shared
secret at floor(len/2), hashing the first part into the 16-byte key and
the rest into the 16-byte iv; equal secrets give equal derivations. -/
theorem c6_keyiv_derivation (scfg : ServerConfig) (ccfg : ClientConfig)
    (hk : scfg.key = ccfg.key) :
    serverKeyIv scfg = clientKeyIv ccfg ∧
    (serverKeyIv scfg).1 = md5 (scfg.key.take (scfg.key.length / 2)) ∧
    (serverKeyIv scfg).2 = md5 (scfg.key.drop (scfg.key.length / 2)) ∧
    (serverKeyIv scfg).1.length = 16 ∧ (serverKeyIv scfg).2.length = 16 := by
  refine ⟨?_, rfl, rfl, md5_length _, md5_length _⟩
  unfold serverKeyIv clientKeyIv
  rw [hk]

/-- C6 witness: two configurations sharing the secret [1, 2, 3]. -/
theorem c6_keyiv_derivation_witness :
    serverKeyIv ⟨[1, 2, 3], 8808, []⟩ =
      clientKeyIv ⟨[1, 2, 3], "127.0.0.1:8808", []⟩ ∧
    (serverKeyIv ⟨[1, 2, 3], 8808, []⟩).1 =
      md5 (([1, 2, 3] : List Nat).take (([1, 2, 3] : List Nat).length / 2)) ∧
    (serverKeyIv ⟨[1, 2, 3], 8808, []⟩).2 =
      md5 (([1, 2, 3] : List Nat).drop (([1, 2, 3] : List Nat).length / 2)) ∧
    (serverKeyIv ⟨[1, 2, 3], 8808, []⟩).1.length = 16 ∧
    (serverKeyIv ⟨[1, 2, 3], 8808, []⟩).2.length = 16 :=
  c6_keyiv_derivation ⟨[1, 2, 3], 8808, []⟩ ⟨[1, 2, 3], "127.0.0.1:8808", []⟩ rfl

end Pmap
